import Mathlib

/-!
Shallow embedding of the work-item lifecycle engine of the
`project-context-sync` plugin (scripts `session-start.js`, `session-end.js`,
`validate-progress.js`, `track-modification.js`).

Modelling conventions:
* JavaScript strings are Lean `String`; string operations that the scripts
  use (`trim`, `split`, `includes`, lower-casing for case-insensitive regex
  matching) are implemented here over `String.data` so that they compute.
* A value read from a JSON file is `Option (Option α)`: `none` means the file
  does not exist, `some none` means its content failed to parse, and
  `some (some a)` is the parsed value.
* The external command runner (`execSync`) is modelled by an `ExecOutcome`:
  `ok stdout` when the command returned normally (exit code 0 — `execSync`
  throws on any non-zero exit), and `err status message` when it threw
  (`status` is the exit code carried by the error, `none` when the error has
  no exit code, e.g. a timeout or a missing command).
* Regular-expression search (`new RegExp(p).test(s)`) is an external
  capability and is passed in as a function `regexTest : String → String →
  Bool`, except for the fixed section-heading patterns of `checkSections`,
  which are implemented concretely.
* `Date.now()` and timestamps are integers (milliseconds); ISO date strings
  used only as abstract sort keys are interpreted through a parameter
  `dateValue : String → Int` standing for `new Date(s).getTime()`.
-/

namespace ContextSync

/-- JavaScript truthiness of a nullable string: `null`/`undefined` and the
empty string are falsy. -/
def strTruthy : Option String → Bool
  | some s => s != ""
  | none => false

/-- Character-level containment: JavaScript `hay.includes(needle)`. -/
def listContainsSub (needle hay : List Char) : Bool :=
  needle.isPrefixOf hay ||
    match hay with
    | [] => false
    | _ :: t => listContainsSub needle t

/-- JavaScript `hay.includes(needle)` on strings. -/
def strIncludes (hay needle : String) : Bool :=
  listContainsSub needle.data hay.data

/-- JavaScript `String.prototype.toLowerCase` (ASCII case folding suffices
for the section names involved). -/
def strLower (s : String) : String :=
  String.mk (s.data.map Char.toLower)

/-- JavaScript `String.prototype.trim`. -/
def strTrim (s : String) : String :=
  String.mk (((s.data.dropWhile Char.isWhitespace).reverse.dropWhile
    Char.isWhitespace).reverse)

/-- Split a character list at every occurrence of `sep`
(JavaScript `s.split(sep)` for a one-character separator). -/
def splitChars (sep : Char) : List Char → List (List Char)
  | [] => [[]]
  | c :: cs =>
    let r := splitChars sep cs
    if c == sep then [] :: r
    else
      match r with
      | [] => [[c]]
      | h :: t => (c :: h) :: t

/-- JavaScript `s.split("\n")`. -/
def splitLines (s : String) : List String :=
  (splitChars '\n' s.data).map String.mk

/-! ## Data model (`feature_list.json`) -/

/-- A single automated gate attached to a work item
(`verification` array entry). Fields that the scripts guard with
truthiness checks are `Option`s. -/
structure VerificationCheck where
  command : String
  description : String
  expectedExitCode : Option Int := none
  expectedOutput : Option String := none
  optional : Bool := false
deriving DecidableEq

/-- A session-sized unit of work (`items` array entry). -/
structure WorkItem where
  id : String
  description : String
  status : String
  dependencies : Option (List String) := none
  verification : Option (List VerificationCheck) := none
  acceptanceCriteria : Option (List String) := none
  estimatedEffort : Option String := none
  notes : Option String := none
  completedAt : Option String := none
deriving DecidableEq

/-- The root aggregate for a planned feature (`feature_list.json`). -/
structure FeatureList where
  feature : String
  description : String := ""
  status : String
  items : Option (List WorkItem)
deriving DecidableEq

/-- The per-session modification ledger (`modifications.json`), with the
field layout written by `track-modification.js`. -/
structure Mods where
  sessionId : Option String
  files : List String
  count : Nat
  lastModified : Option String
  contextSyncedAt : Option String
deriving DecidableEq

/-- The `{ files: [], count: 0 }` fallback returned by the readers when the
ledger file is missing, unparseable or belongs to another session. -/
def emptyMods : Mods :=
  { sessionId := none, files := [], count := 0, lastModified := none
    contextSyncedAt := none }

/-- Session bookkeeping record (`current-session.json`). -/
structure SessionRec where
  sessionId : Option String
  startTime : Option String := none
  cwd : Option String := none
  contextSynced : Option Bool := none
  syncedAt : Option String := none
  syncedBy : Option String := none
deriving DecidableEq

/-- Outcome of invoking the command runner (`execSync`). -/
inductive ExecOutcome where
  | ok (stdout : String)
  | err (status : Option Int) (message : String)
deriving DecidableEq

namespace SessionStart

/-- Plugin configuration with the defaults of `session-start.js`. -/
structure Config where
  enabled : Bool
  worktreeIsolation : Bool
  requireProgressFile : Bool
  gitHistoryLines : Nat
  showFullProgress : Bool
  quietStart : Bool
  runSmokeTests : Bool
  smokeTestTimeout : Nat
deriving DecidableEq

/-- The hard-coded defaults of `loadConfig` in `session-start.js`. -/
def defaults : Config :=
  { enabled := true, worktreeIsolation := false, requireProgressFile := false
    gitHistoryLines := 10, showFullProgress := true, quietStart := false
    runSmokeTests := true, smokeTestTimeout := 30 }

/-- A user configuration file: every recognized key may be absent. -/
structure ConfigFile where
  enabled : Option Bool := none
  worktreeIsolation : Option Bool := none
  requireProgressFile : Option Bool := none
  gitHistoryLines : Option Nat := none
  showFullProgress : Option Bool := none
  quietStart : Option Bool := none
  runSmokeTests : Option Bool := none
  smokeTestTimeout : Option Nat := none
deriving DecidableEq

/-- The JavaScript spread `{ ...defaults, ...userConfig }`: a key present in
the user file overrides the default. -/
def mergeConfig (d : Config) (u : ConfigFile) : Config :=
  { enabled := u.enabled.getD d.enabled
    worktreeIsolation := u.worktreeIsolation.getD d.worktreeIsolation
    requireProgressFile := u.requireProgressFile.getD d.requireProgressFile
    gitHistoryLines := u.gitHistoryLines.getD d.gitHistoryLines
    showFullProgress := u.showFullProgress.getD d.showFullProgress
    quietStart := u.quietStart.getD d.quietStart
    runSmokeTests := u.runSmokeTests.getD d.runSmokeTests
    smokeTestTimeout := u.smokeTestTimeout.getD d.smokeTestTimeout }

/-- Function `loadConfig` of `session-start.js`: missing or unparseable config file
falls back to the defaults; otherwise merge over the defaults. -/
def loadConfig : Option (Option ConfigFile) → Config
  | some (some user) => mergeConfig defaults user
  | some none => defaults
  | none => defaults

/-- Function `loadFeatureList` of `session-start.js`: missing or unparseable
`feature_list.json` yields `null`. -/
def loadFeatureList : Option (Option FeatureList) → Option FeatureList
  | some (some fl) => some fl
  | some none => none
  | none => none

/-- The stale-ledger clearing step of `initStateDir` in `session-start.js`:
`modifications.json` is deleted (`none`) when it is unparseable or belongs
to a different session; otherwise it is kept. -/
def initStateDirMods (modsFile : Option (Option Mods))
    (sessionId : Option String) : Option (Option Mods) :=
  match modsFile with
  | none => none
  | some none => none
  | some (some mods) =>
    if strTruthy sessionId && strTruthy mods.sessionId &&
        (mods.sessionId != sessionId) then none
    else some (some mods)

/-- Ids of the items whose status is `complete`
(the `completedIds` set of `getNextWorkItem`). -/
def completedIds (items : List WorkItem) : List String :=
  (items.filter (fun item => item.status == "complete")).map (·.id)

/-- Eligibility of a pending item inside the `getNextWorkItem` scan:
status `pending` and every dependency id among the completed ids. -/
def eligiblePending (items : List WorkItem) (item : WorkItem) : Bool :=
  item.status == "pending" &&
    (item.dependencies.getD []).all (fun depId => (completedIds items).contains depId)

/-- Function `getNextWorkItem` of `session-start.js`. -/
def getNextWorkItem (featureList : Option FeatureList) : Option WorkItem :=
  match featureList with
  | none => none
  | some fl =>
    match fl.items with
    | none => none
    | some items =>
      match items.find? (fun item => item.status == "in-progress") with
      | some inProgress => some inProgress
      | none => items.find? (eligiblePending items)

/-- The result record of `runVerification`. -/
structure VerifyResult where
  passed : Bool
  reason : Option String := none
deriving DecidableEq

/-- Function `runVerification` of `session-start.js`. The `timeout` argument of the
source only parameterizes `execSync` and is reflected in `outcome`. Note
that in the non-throwing branch (exit code 0) the source computes
`expectedExit` but never compares it. -/
def runVerification (regexTest : String → String → Bool)
    (verification : VerificationCheck) (outcome : ExecOutcome) : VerifyResult :=
  match outcome with
  | .ok result =>
    match verification.expectedOutput with
    | some expectedOutput =>
      if expectedOutput != "" && !(regexTest expectedOutput result) then
        { passed := false
          reason := some ("Output did not match pattern: " ++ expectedOutput) }
      else { passed := true }
    | none => { passed := true }
  | .err status message =>
    let expectedExit := verification.expectedExitCode.getD 0
    if status == some expectedExit then { passed := true }
    else
      { passed := false
        reason := some (if message == "" then "Command failed" else message) }

/-- One entry of the `tests` array assembled by `runSmokeTests`. -/
structure SmokeTest where
  command : String
  description : String
  passed : Bool
  reason : Option String
deriving DecidableEq

/-- The result record of `runSmokeTests`. -/
structure SmokeResults where
  itemId : String
  itemDescription : String
  tests : List SmokeTest
  allPassed : Bool
deriving DecidableEq

/-- The completed items carrying a truthy `completedAt`, sorted most recent
first — the `filter`/`sort` pipeline of `runSmokeTests`. JavaScript
`Array.prototype.sort` is stable, so a stable merge sort with the
comparator `new Date(b.completedAt) - new Date(a.completedAt)` is used. -/
def completedItemsSorted (dateValue : String → Int) (items : List WorkItem) :
    List WorkItem :=
  (items.filter
      (fun item => item.status == "complete" && strTruthy item.completedAt)).mergeSort
    (fun a b => dateValue (b.completedAt.getD "") ≤ dateValue (a.completedAt.getD ""))

/-- Function `runSmokeTests` of `session-start.js`: re-run the non-optional checks of
the most recently completed item (the loop body `if (verification.optional)
continue` skips optional checks). -/
def runSmokeTests (regexTest : String → String → Bool)
    (exec : VerificationCheck → ExecOutcome) (dateValue : String → Int)
    (featureList : Option FeatureList) (config : Config) : Option SmokeResults :=
  if !config.runSmokeTests then none
  else
    match featureList with
    | none => none
    | some fl =>
      match fl.items with
      | none => none
      | some items =>
        match (completedItemsSorted dateValue items).head? with
        | none => none
        | some lastCompleted =>
          match lastCompleted.verification with
          | none => none
          | some vs =>
            if vs.isEmpty then none
            else
              let tests := (vs.filter (fun v => !v.optional)).map (fun v =>
                let result := runVerification regexTest v (exec v)
                { command := v.command, description := v.description
                  passed := result.passed, reason := result.reason : SmokeTest })
              some { itemId := lastCompleted.id
                     itemDescription := lastCompleted.description
                     tests := tests
                     allPassed := tests.all (·.passed) }

end SessionStart

namespace Track

/-- The default ledger of `loadModifications` in `track-modification.js`,
used when `modifications.json` is missing or unparseable. -/
def loadModifications : Option (Option Mods) → Mods
  | some (some mods) => mods
  | some none =>
    { sessionId := none, files := [], count := 0, lastModified := none
      contextSyncedAt := none }
  | none =>
    { sessionId := none, files := [], count := 0, lastModified := none
      contextSyncedAt := none }

/-- The early-exit filter of `track-modification.js`: paths inside the
engine's own bookkeeping namespace are not tracked. -/
def isContextPath (relativePath : String) : Bool :=
  strIncludes relativePath ".claude/" &&
    (strIncludes relativePath "PROGRESS.md" ||
      strIncludes relativePath ".context-state")

/-- The ledger update of `main` in `track-modification.js`, given the loaded
ledger, the event's session id, the (project-relative) file path extracted
from the tool input, and the current time (`new Date().toISOString()`).
`filePath = none` models a tool input carrying no file path. -/
def trackMain (mods0 : Mods) (sessionId : Option String)
    (filePath : Option String) (now : String) : Mods :=
  match filePath with
  | none => mods0
  | some relativePath =>
    if isContextPath relativePath then mods0
    else
      let mods1 :=
        if strTruthy sessionId && strTruthy mods0.sessionId &&
            (mods0.sessionId != sessionId) then
          { sessionId := sessionId, files := [], count := 0
            lastModified := none, contextSyncedAt := none }
        else mods0
      let mods2 :=
        if strTruthy sessionId && !(strTruthy mods1.sessionId) then
          { mods1 with sessionId := sessionId }
        else mods1
      let mods3 :=
        if mods2.files.contains relativePath then mods2
        else { mods2 with files := mods2.files ++ [relativePath] }
      { mods3 with count := mods3.count + 1, lastModified := some now }

end Track

namespace SessionEnd

/-- The duplicate-execution prevention window of `session-end.js`. -/
def LOCK_WINDOW_MS : Int := 5000

/-- Function `acquireLock` of `session-end.js`, as a pure transition on the lock-file
state (`none` = no lock file, `some none` = unparseable content — `parseInt`
gave `NaN` —, `some (some t)` = recorded timestamp `t`). Returns whether the
event may proceed together with the new lock-file state. -/
def acquireLock (lock : Option (Option Int)) (now : Int) :
    Bool × Option (Option Int) :=
  match lock with
  | some (some lastRun) =>
    if now - lastRun < LOCK_WINDOW_MS then (false, some (some lastRun))
    else (true, some (some now))
  | some none => (true, some (some now))
  | none => (true, some (some now))

/-- Plugin configuration with the defaults of `session-end.js`. -/
structure EConfig where
  enabled : Bool
  sessionEndSync : Bool
  syncTimeout : Nat
  maxTurns : Nat
  worktreeIsolation : Bool
  minModificationsForSync : Nat
deriving DecidableEq

/-- The hard-coded defaults of `loadConfig` in `session-end.js`. -/
def edefaults : EConfig :=
  { enabled := true, sessionEndSync := true, syncTimeout := 180
    maxTurns := 5, worktreeIsolation := false, minModificationsForSync := 1 }

/-- A user configuration file for `session-end.js`. -/
structure EConfigFile where
  enabled : Option Bool := none
  sessionEndSync : Option Bool := none
  syncTimeout : Option Nat := none
  maxTurns : Option Nat := none
  worktreeIsolation : Option Bool := none
  minModificationsForSync : Option Nat := none
deriving DecidableEq

/-- Function `loadConfig` of `session-end.js` (spread over the defaults; missing or
unparseable file falls back to the defaults). -/
def eLoadConfig : Option (Option EConfigFile) → EConfig
  | some (some u) =>
    { enabled := u.enabled.getD edefaults.enabled
      sessionEndSync := u.sessionEndSync.getD edefaults.sessionEndSync
      syncTimeout := u.syncTimeout.getD edefaults.syncTimeout
      maxTurns := u.maxTurns.getD edefaults.maxTurns
      worktreeIsolation := u.worktreeIsolation.getD edefaults.worktreeIsolation
      minModificationsForSync :=
        u.minModificationsForSync.getD edefaults.minModificationsForSync }
  | some none => edefaults
  | none => edefaults

/-- Function `wasContextSynced` of `session-end.js`: the session counts as synced only
when `current-session.json` parses, carries the same session id, and has
`contextSynced === true`. -/
def wasContextSynced (sessionFile : Option (Option SessionRec))
    (sessionId : Option String) : Bool :=
  match sessionFile with
  | some (some session) =>
    if strTruthy sessionId && (session.sessionId != sessionId) then false
    else session.contextSynced == some true
  | some none => false
  | none => false

/-- Function `getSessionModifications` of `session-end.js`: a ledger from a different
session is replaced by the empty ledger; a missing or unparseable file is the
empty ledger. -/
def getSessionModifications (modsFile : Option (Option Mods))
    (sessionId : Option String) : Mods :=
  match modsFile with
  | some (some mods) =>
    if strTruthy sessionId && strTruthy mods.sessionId &&
        (mods.sessionId != sessionId) then emptyMods
    else mods
  | some none => emptyMods
  | none => emptyMods

/-- Function `hasWorkToDocument` of `session-end.js`; `gitStatusPorcelain` and
`gitLogHour` are the raw outputs of `git status --porcelain` and
`git log --oneline --since="1 hour ago"` (`none` = the command threw). -/
def hasWorkToDocument (isGit : Bool) (gitStatusPorcelain : Option String)
    (modsFile : Option (Option Mods)) (gitLogHour : Option String)
    (sessionId : Option String) (config : EConfig) : Bool :=
  if isGit &&
      (match gitStatusPorcelain with
       | some out => strTrim out != ""
       | none => false) then true
  else
    let mods := getSessionModifications modsFile sessionId
    if config.minModificationsForSync ≤ mods.count then true
    else if isGit then
      match gitLogHour with
      | some out => (strTrim out).length > 0
      | none => false
    else false

/-- JavaScript `x || null` on a nullable string. -/
def jsOrNullStr : Option String → Option String
  | some s => if s == "" then none else some s
  | none => none

/-- The environment `main` of `session-end.js` runs against. -/
structure EEnv where
  configFile : Option (Option EConfigFile)
  lockFile : Option (Option Int)
  now : Int
  sessionIdRaw : Option String
  reasonRaw : Option String
  sessionFile : Option (Option SessionRec)
  modsFile : Option (Option Mods)
  isGit : Bool
  gitStatusPorcelain : Option String
  gitLogHour : Option String
deriving DecidableEq

/-- Observable outcome of one `session-end.js` invocation. -/
structure EOutcome where
  exitCode : Nat
  spawned : Bool
  markedSynced : Bool
  lockAfter : Option (Option Int)
deriving DecidableEq

/-- Function `main` of `session-end.js` as a pure function of its environment:
the chain of early exits, then `spawnBackgroundSync` followed by
`markSynced`. -/
def sessionEndMain (env : EEnv) : EOutcome :=
  let config := eLoadConfig env.configFile
  if !config.enabled || !config.sessionEndSync then
    { exitCode := 0, spawned := false, markedSynced := false
      lockAfter := env.lockFile }
  else
    let lockRes := acquireLock env.lockFile env.now
    if !lockRes.1 then
      { exitCode := 0, spawned := false, markedSynced := false
        lockAfter := lockRes.2 }
    else
      match jsOrNullStr env.sessionIdRaw with
      | none =>
        { exitCode := 0, spawned := false, markedSynced := false
          lockAfter := lockRes.2 }
      | some sid =>
        let reason := (jsOrNullStr env.reasonRaw).getD "unknown"
        if reason != "exit" then
          { exitCode := 0, spawned := false, markedSynced := false
            lockAfter := lockRes.2 }
        else if wasContextSynced env.sessionFile (some sid) then
          { exitCode := 0, spawned := false, markedSynced := false
            lockAfter := lockRes.2 }
        else if !(hasWorkToDocument env.isGit env.gitStatusPorcelain
            env.modsFile env.gitLogHour (some sid) config) then
          { exitCode := 0, spawned := false, markedSynced := false
            lockAfter := lockRes.2 }
        else
          { exitCode := 0, spawned := true, markedSynced := true
            lockAfter := lockRes.2 }

end SessionEnd

namespace ValidateProgress

/-- The required `PROGRESS.md` sections, in declaration order. -/
def REQUIRED_SECTIONS : List String := ["Current State", "Recent Work", "Next Steps"]

/-- One heading pattern of `checkSections`: the regex
`^<hashes>\s+<section>` with flags `mi` — some line starts with the hash
run, then at least one whitespace character, then the section name,
case-insensitively. -/
def matchesHashHeading (hashes : String) (sec : String) (content : String) : Bool :=
  (splitLines content).any fun line =>
    hashes.data.isPrefixOf line.data &&
      (let rest := line.data.drop hashes.data.length
       let ws := rest.takeWhile Char.isWhitespace
       !ws.isEmpty &&
         (sec.data.map Char.toLower).isPrefixOf
           ((rest.drop ws.length).map Char.toLower))

/-- The bold-emphasis pattern of `checkSections`: the regex
`\*\*<section>\*\*` with flag `i` — the content contains
`**<section>**` case-insensitively. -/
def matchesBold (sec : String) (content : String) : Bool :=
  strIncludes (strLower content) ("**" ++ strLower sec ++ "**")

/-- Whether one of the four patterns of `checkSections` matches. -/
def sectionExists (sec : String) (content : String) : Bool :=
  matchesHashHeading "##" sec content || matchesHashHeading "###" sec content ||
    matchesHashHeading "#" sec content || matchesBold sec content

/-- Function `checkSections` of `validate-progress.js`: the required sections
partitioned into `(found, missing)`, preserving declaration order. -/
def checkSections (content : String) : List String × List String :=
  (REQUIRED_SECTIONS.filter (fun s => sectionExists s content),
    REQUIRED_SECTIONS.filter (fun s => !(sectionExists s content)))

/-- The per-section repair fragments of `generateRepairTemplate`;
`today` is `new Date().toISOString().split('T')[0]`. An unknown section
name has no template (unreachable from `checkSections`). -/
def sectionTemplate (today : String) (sec : String) : String :=
  if sec == "Current State" then
    "## Current State\n\n**Status**: [Working | Partially Working | Broken]\n\n[Describe current project state]\n"
  else if sec == "Recent Work" then
    "## Recent Work\n\n### " ++ today ++ " - [Summary]\n- [What was done]\n"
  else if sec == "Next Steps" then
    "## Next Steps\n\n1. [Next priority task]\n"
  else ""

/-- Function `generateRepairTemplate` of `validate-progress.js`:
`missing.map(s => templates[s]).join('\n')`. -/
def generateRepairTemplate (today : String) (missing : List String) : String :=
  String.intercalate "\n" (missing.map (sectionTemplate today))

/-- The environment `validate-progress.js` runs against.
`gitLogSinceResult` / `gitStatusResult` are the raw outputs of
`git log --oneline --since=<mtime>` and `git status --porcelain`
(`none` = the command threw). -/
structure VEnv where
  progressContent : Option String
  isGit : Bool
  gitLogSinceResult : Option String
  gitStatusResult : Option String
  modsFile : Option (Option Mods)
  sessionId : Option String
  today : String
deriving DecidableEq

/-- Function `getCommitsSinceProgress` of `validate-progress.js`: `null` unless in a
git repository with an existing `PROGRESS.md` and a successful `git log`;
an empty (trimmed) output is zero commits, otherwise the line count. -/
def getCommitsSinceProgress (env : VEnv) : Option Nat :=
  if !env.isGit then none
  else
    match env.progressContent with
    | none => none
    | some _ =>
      match env.gitLogSinceResult with
      | none => none
      | some out =>
        let commits := strTrim out
        if commits == "" then some 0
        else some (splitLines commits).length

/-- Function `getUncommittedCount` of `validate-progress.js`. -/
def getUncommittedCount (env : VEnv) : Option Nat :=
  if !env.isGit then none
  else
    match env.gitStatusResult with
    | none => none
    | some out =>
      let status := strTrim out
      if status == "" then some 0
      else some (splitLines status).length

/-- Function `getSessionModifications` of `validate-progress.js` (identical logic to
the `session-end.js` reader, with the session id taken from the hook
input). -/
def getSessionModificationsV (env : VEnv) : Mods :=
  SessionEnd.getSessionModifications env.modsFile env.sessionId

/-- The prioritized issue list assembled by `main` of
`validate-progress.js`, in push order. -/
def validateIssues (env : VEnv) : List String :=
  (match env.progressContent with
   | some content =>
     if (checkSections content).2.length > 0 then
       ["Missing sections: " ++ String.intercalate ", " (checkSections content).2]
     else []
   | none => ["PROGRESS.md does not exist"]) ++
  (match getCommitsSinceProgress env with
   | some n =>
     if n > 0 then
       [toString n ++ " commit(s) since PROGRESS.md was last updated"]
     else []
   | none => []) ++
  (match getUncommittedCount env with
   | some n => if n > 0 then [toString n ++ " uncommitted change(s)"] else []
   | none => []) ++
  (if (getSessionModificationsV env).count > 0 && env.progressContent.isNone then
     [toString (getSessionModificationsV env).count ++
       " file modifications this session but no PROGRESS.md"]
   else [])

/-- The repair template attached by `main` of `validate-progress.js`
(`autoRepair.template`; `none` when `canAutoRepair` is false). -/
def repairOf (env : VEnv) : Option String :=
  match env.progressContent with
  | some content =>
    if (checkSections content).2.length > 0 then
      some (generateRepairTemplate env.today (checkSections content).2)
    else none
  | none =>
    some ("# Project Progress\n\n" ++
      generateRepairTemplate env.today REQUIRED_SECTIONS)

/-- The validation summary printed by `main` of `validate-progress.js`,
together with the process exit code. -/
structure Summary where
  valid : Bool
  issues : List String
  progressExists : Bool
  sectionsPresent : List String
  sectionsMissing : List String
  commitsSinceUpdate : Option Nat
  uncommittedChanges : Option Nat
  filesModifiedThisSession : Nat
  modifiedFiles : List String
  repairTemplate : Option String
  exitCode : Nat
deriving DecidableEq

/-- Function `main` of `validate-progress.js` as a pure function of its
environment. -/
def validateMain (env : VEnv) : Summary :=
  let issues := validateIssues env
  let mods := getSessionModificationsV env
  { valid := issues.isEmpty
    issues := issues
    progressExists := env.progressContent.isSome
    sectionsPresent :=
      match env.progressContent with
      | some content => (checkSections content).1
      | none => []
    sectionsMissing :=
      match env.progressContent with
      | some content => (checkSections content).2
      | none => REQUIRED_SECTIONS
    commitsSinceUpdate := getCommitsSinceProgress env
    uncommittedChanges := getUncommittedCount env
    filesModifiedThisSession := mods.files.length
    modifiedFiles := mods.files.take 10
    repairTemplate := repairOf env
    exitCode := if issues.isEmpty then 0 else 1 }

end ValidateProgress

namespace Examples

/-- A regex-test capability that never matches (unused by the runs below
whose checks have no `expectedOutput`). -/
def rtNever : String → String → Bool := fun _ _ => false

/-- A date-parse capability; the concrete runs below involve at most one
completed item, so the key is irrelevant. -/
def dvZero : String → Int := fun _ => 0

/-- A check declaring that its command should exit 1. -/
def bugCheck : VerificationCheck :=
  { command := "true", description := "expected to fail", expectedExitCode := some 1 }

/-- Work item A, pending, no dependencies. -/
def cexItemA : WorkItem := { id := "A", description := "base", status := "pending" }

/-- Work item B, in progress, depending on the incomplete item A. -/
def cexItemB : WorkItem :=
  { id := "B", description := "dependent", status := "in-progress"
    dependencies := some ["A"] }

/-- A feature list whose in-progress item has an unmet dependency. -/
def cexFL : FeatureList :=
  { feature := "demo", status := "in-progress", items := some [cexItemA, cexItemB] }

/-- Work item A of the spec scenario, complete. -/
def witItemA : WorkItem := { id := "A", description := "base", status := "complete" }

/-- Work item B of the spec scenario, pending with dependency A. -/
def witItemB : WorkItem :=
  { id := "B", description := "dependent", status := "pending"
    dependencies := some ["A"] }

/-- The spec scenario feature list: `[A(complete), B(pending, deps=[A])]`. -/
def witFL : FeatureList :=
  { feature := "demo", status := "in-progress", items := some [witItemA, witItemB] }

/-- A ledger owned by session A with recorded work. -/
def modsA : Mods :=
  { sessionId := some "session-A", files := ["src/a.js"], count := 3
    lastModified := some "2024-01-01T00:00:00Z", contextSyncedAt := none }

/-- An optional verification check. -/
def optCheck : VerificationCheck :=
  { command := "exit 1", description := "optional gate", optional := true }

/-- A non-optional verification check. -/
def okCheck : VerificationCheck :=
  { command := "test -f x", description := "required gate" }

/-- A non-optional check whose command is missing and therefore throws. -/
def failCheck : VerificationCheck :=
  { command := "missing-cmd", description := "throwing gate" }

/-- A command runner under which every optional check fails (exit 1) and
every other check succeeds. -/
def execSplit : VerificationCheck → ExecOutcome := fun v =>
  if v.optional then .err (some 1) "optional failed" else .ok ""

/-- A command runner under which `missing-cmd` throws without an exit code
and every other command succeeds. -/
def execMix : VerificationCheck → ExecOutcome := fun v =>
  if v.command == "missing-cmd" then .err none "spawn missing-cmd ENOENT"
  else .ok ""

/-- A completed item whose only check is optional. -/
def cex5Item : WorkItem :=
  { id := "it1", description := "shipped", status := "complete"
    completedAt := some "2024-01-02T00:00:00Z", verification := some [optCheck] }

/-- Feature list around `cex5Item`. -/
def cex5FL : FeatureList :=
  { feature := "demo", status := "in-progress", items := some [cex5Item] }

/-- A completed item with one optional and one required check. -/
def wit5Item : WorkItem :=
  { id := "it2", description := "shipped", status := "complete"
    completedAt := some "2024-01-02T00:00:00Z"
    verification := some [optCheck, okCheck] }

/-- Feature list around `wit5Item`. -/
def wit5FL : FeatureList :=
  { feature := "demo", status := "in-progress", items := some [wit5Item] }

/-- A completed item whose first check throws and whose second succeeds. -/
def wit6Item : WorkItem :=
  { id := "it3", description := "shipped", status := "complete"
    completedAt := some "2024-01-03T00:00:00Z"
    verification := some [failCheck, okCheck] }

/-- Feature list around `wit6Item`. -/
def wit6FL : FeatureList :=
  { feature := "demo", status := "in-progress", items := some [wit6Item] }

/-- An environment whose documentation artifact contains only a
`Current State` heading (no git repository, no ledger). -/
def onlyCurrentStateEnv (today : String) : ValidateProgress.VEnv :=
  { progressContent := some "## Current State", isGit := false
    gitLogSinceResult := none, gitStatusResult := none, modsFile := none
    sessionId := none, today := today }

/-- The §8 scenario environment: no documentation artifact, a git
repository with no uncommitted changes, no tracked modifications. -/
def scenarioEnv : ValidateProgress.VEnv :=
  { progressContent := none, isGit := true, gitLogSinceResult := some ""
    gitStatusResult := some "", modsFile := none, sessionId := none
    today := "2024-06-01" }

end Examples

/-! ## Theorems -/

open SessionStart SessionEnd ValidateProgress Track Examples

/-- Helper: `all` over a mapped list. -/
theorem all_map_eq {α β : Type} (f : α → β) (p : β → Bool) (l : List α) :
    (l.map f).all p = l.all (fun a => p (f a)) := by
  induction l with
  | nil => rfl
  | cons h t ih => simp [ih]

/-- Helper: sorting a one-element completed list is the identity. -/
theorem completedItemsSorted_singleton (dv : String → Int) (item : WorkItem)
    (h : (item.status == "complete" && strTruthy item.completedAt) = true) :
    completedItemsSorted dv [item] = [item] := by
  unfold completedItemsSorted
  rw [List.filter_cons, if_pos h]
  exact List.mergeSort_singleton item

/-- C1. The Verification Runner classifies a check as passed iff the
actual exit code equals the expected one and the output pattern (if any)
matches. The code violates this: in the non-throwing branch (exit code 0)
it never compares the exit code against `expectedExitCode` (the variable
is computed but unused), so a check with `expectedExitCode: 1` passes when
its command exits 0. This theorem evaluates the embedded code at the
failing input: `bugCheck` expects exit code 1; when the command exits 1 the
check passes (as the claim says), but when the command exits 0 the check
also passes (the claim says it must fail). -/
theorem runVerification_exit_code_bug :
    bugCheck.expectedExitCode = some 1
  ∧ runVerification rtNever bugCheck (.err (some 1) "exit status 1") =
      { passed := true, reason := none }
  ∧ runVerification rtNever bugCheck (.ok "") =
      { passed := true, reason := none } := by
  decide

/-- C3. Lock Coordinator with its 5000 ms window: if a first finalize event
proceeds at time `t₁`, it records `t₁` as the lock timestamp; a second
event at `t₂` with `t₂ − t₁ < 5000` is refused and leaves the lock
unchanged; a second event 10 seconds after the first proceeds and records
its own time. -/
theorem acquireLock_duplicate_window (s : Option (Option Int)) (t₁ t₂ t₃ : Int)
    (h12 : t₂ - t₁ < 5000) (h13 : t₃ = t₁ + 10000)
    (hfirst : (acquireLock s t₁).1 = true) :
    (acquireLock s t₁).2 = some (some t₁)
  ∧ acquireLock (acquireLock s t₁).2 t₂ = (false, some (some t₁))
  ∧ acquireLock (acquireLock s t₁).2 t₃ = (true, some (some t₃)) := by
  have hstate : (acquireLock s t₁).2 = some (some t₁) := by
    unfold acquireLock at hfirst ⊢
    match s with
    | none => rfl
    | some none => rfl
    | some (some lastRun) =>
      by_cases h : t₁ - lastRun < LOCK_WINDOW_MS
      · simp [h] at hfirst
      · simp [h]
  refine ⟨hstate, ?_, ?_⟩
  · rw [hstate]
    unfold acquireLock
    have : t₂ - t₁ < LOCK_WINDOW_MS := by unfold LOCK_WINDOW_MS; omega
    simp [this]
  · rw [hstate]
    unfold acquireLock
    have : ¬(t₃ - t₁ < LOCK_WINDOW_MS) := by unfold LOCK_WINDOW_MS; omega
    simp [this]

/-- Witness for C3 at `t₁ = 1000`, `t₂ = 2000`, `t₃ = 11000` on an absent
lock file. -/
theorem acquireLock_duplicate_window_witness :
    (acquireLock none 1000).2 = some (some 1000)
  ∧ acquireLock (acquireLock none 1000).2 2000 = (false, some (some 1000))
  ∧ acquireLock (acquireLock none 1000).2 11000 = (true, some (some 11000)) :=
  acquireLock_duplicate_window none 1000 2000 11000 (by decide) (by decide)
    (by decide)

/-- C9. Every persisted-artifact loader treats a missing (`none`) or
unparseable (`some none`) file as absent and returns the empty/default
state for its artifact kind: `null` feature list, default configuration
(for both scripts), empty modification ledger (for both readers), and a
not-synced session record; none of them can raise. -/
theorem loaders_default_fallback :
    ∀ (sid : Option String) (pc : Option String) (ig : Bool)
      (gl gs : Option String) (today : String),
      loadFeatureList none = none
    ∧ loadFeatureList (some none) = none
    ∧ loadConfig none = SessionStart.defaults
    ∧ loadConfig (some none) = SessionStart.defaults
    ∧ eLoadConfig none = edefaults
    ∧ eLoadConfig (some none) = edefaults
    ∧ SessionEnd.getSessionModifications none sid = emptyMods
    ∧ SessionEnd.getSessionModifications (some none) sid = emptyMods
    ∧ getSessionModificationsV
        { progressContent := pc, isGit := ig, gitLogSinceResult := gl
          gitStatusResult := gs, modsFile := none, sessionId := sid
          today := today } = emptyMods
    ∧ getSessionModificationsV
        { progressContent := pc, isGit := ig, gitLogSinceResult := gl
          gitStatusResult := gs, modsFile := some none, sessionId := sid
          today := today } = emptyMods
    ∧ wasContextSynced none sid = false
    ∧ wasContextSynced (some none) sid = false := by
  intro sid pc ig gl gs today
  exact ⟨rfl, rfl, rfl, rfl, rfl, rfl, rfl, rfl, rfl, rfl, rfl, rfl⟩

/-- C2 counterexample. The claim states the returned item never has an
unmet dependency, but an `in-progress` item is returned regardless of its
dependencies: on `cexFL` (item B in progress, depending on the pending item
A) the selector returns B although B's dependency is not complete. -/
theorem getNextWorkItem_inProgress_unmet_deps_cex :
    ∃ w, getNextWorkItem (some cexFL) = some w
      ∧ w.status ≠ "complete"
      ∧ ((w.dependencies.getD []).all
          (fun d => (completedIds [cexItemA, cexItemB]).contains d)) = false := by
  refine ⟨cexItemB, ?_, ?_, ?_⟩ <;> decide

/-- C2 (amended). `getNextWorkItem` is a pure function of the feature list
(repeated calls agree); when some item is in progress it returns the first
such item in list order; otherwise it returns the first pending item whose
every dependency id is among the complete items (and `none` when no item
qualifies — `find?` of an unsatisfied predicate); the returned item never
has status `complete`; and whenever the returned item has status `pending`
its every dependency is complete (an in-progress item, by contrast, is
returned even if its dependencies are unmet). -/
theorem getNextWorkItem_correct (fl : FeatureList) (items : List WorkItem)
    (hitems : fl.items = some items) :
    getNextWorkItem (some fl) = getNextWorkItem (some fl)
  ∧ ((∃ i ∈ items, i.status = "in-progress") →
      getNextWorkItem (some fl) =
        items.find? (fun item => item.status == "in-progress"))
  ∧ ((∀ i ∈ items, i.status ≠ "in-progress") →
      getNextWorkItem (some fl) = items.find? (eligiblePending items))
  ∧ (∀ w, getNextWorkItem (some fl) = some w → w.status ≠ "complete")
  ∧ (∀ w, getNextWorkItem (some fl) = some w → w.status = "pending" →
      ((w.dependencies.getD []).all
        (fun d => (completedIds items).contains d)) = true) := by
  have hdef : getNextWorkItem (some fl) =
      match items.find? (fun item => item.status == "in-progress") with
      | some inProgress => some inProgress
      | none => items.find? (eligiblePending items) := by
    unfold getNextWorkItem
    simp only [hitems]
  refine ⟨rfl, ?_, ?_, ?_, ?_⟩
  · intro hex
    have hsome : (items.find? (fun item => item.status == "in-progress")).isSome :=
      List.find?_isSome.mpr (by
        obtain ⟨i, hi, hs⟩ := hex
        exact ⟨i, hi, by simp [hs]⟩)
    obtain ⟨v, hv⟩ := Option.isSome_iff_exists.mp hsome
    rw [hdef, hv]
  · intro hall
    have hnone : items.find? (fun item => item.status == "in-progress") = none :=
      List.find?_eq_none.mpr (by
        intro x hx
        simp [hall x hx])
    rw [hdef, hnone]
  · intro w hw
    rw [hdef] at hw
    cases hfind : items.find? (fun item => item.status == "in-progress") with
    | some v =>
      rw [hfind] at hw
      have hv := List.find?_some hfind
      have : v.status = "in-progress" := by simpa using hv
      cases hw
      rw [this]
      decide
    | none =>
      rw [hfind] at hw
      have hv := List.find?_some hw
      have : w.status = "pending" := by
        have := (Bool.and_eq_true _ _).mp hv
        simpa using this.1
      rw [this]
      decide
  · intro w hw hpending
    rw [hdef] at hw
    cases hfind : items.find? (fun item => item.status == "in-progress") with
    | some v =>
      rw [hfind] at hw
      have hv := List.find?_some hfind
      cases hw
      have : w.status = "in-progress" := by simpa using hv
      rw [this] at hpending
      exact absurd hpending (by decide)
    | none =>
      rw [hfind] at hw
      have hv := List.find?_some hw
      exact ((Bool.and_eq_true _ _).mp hv).2

/-- Witness for C2 on the spec scenario `[A(complete), B(pending,
deps=[A])]`: no item is in progress, so the selector returns the first
eligible pending item, which evaluates to B. -/
theorem getNextWorkItem_correct_witness :
    getNextWorkItem (some witFL) = some witItemB := by
  rw [(getNextWorkItem_correct witFL [witItemA, witItemB] rfl).2.2.1
    (by decide)]
  decide

/-- C4. A modification event carrying session id `b` on a ledger owned by a
different session id `a` discards the ledger and starts a fresh empty
ledger owned by `b` before recording `b`'s path: afterwards only `b`'s
path is recorded and the count is 1, so none of `a`'s paths or count
remain. A subsequent event for `a` again discards, so `b`'s data is never
resurrected — the ledger belongs to exactly one session id at a time.
`initStateDirMods` (session start) likewise deletes a ledger from a
different session. -/
theorem trackModification_session_reset (mods : Mods) (a b p p' now now' : String)
    (ha : mods.sessionId = some a) (hA : a ≠ "") (hb : b ≠ "") (hab : a ≠ b)
    (hp : isContextPath p = false) (hp' : isContextPath p' = false) :
    trackMain mods (some b) (some p) now =
      { sessionId := some b, files := [p], count := 1
        lastModified := some now, contextSyncedAt := none }
  ∧ trackMain (trackMain mods (some b) (some p) now) (some a) (some p') now' =
      { sessionId := some a, files := [p'], count := 1
        lastModified := some now', contextSyncedAt := none }
  ∧ initStateDirMods (some (some mods)) (some b) = none := by
  have hBtruthy : strTruthy (some b) = true := by
    simp [strTruthy, hb]
  have hAtruthy : strTruthy (some a) = true := by
    simp [strTruthy, hA]
  have hneqAB : (some a != some b) = true := by
    simp only [bne_iff_ne, ne_eq, Option.some.injEq]
    exact hab
  have hneqBA : (some b != some a) = true := by
    simp only [bne_iff_ne, ne_eq, Option.some.injEq]
    exact fun h => hab h.symm
  have h1 : trackMain mods (some b) (some p) now =
      { sessionId := some b, files := [p], count := 1
        lastModified := some now, contextSyncedAt := none } := by
    unfold trackMain
    simp [hp, ha, hAtruthy, hBtruthy, hneqAB]
  refine ⟨h1, ?_, ?_⟩
  · rw [h1]
    unfold trackMain
    simp [hp', hAtruthy, hBtruthy, hneqBA]
  · unfold initStateDirMods
    simp [ha, hAtruthy, hBtruthy, hneqAB]

/-- Witness for C4: a ledger owned by `session-A` with one recorded file
and count 3 receives an event for `session-B` and then one for `session-A`
again; each reset leaves only the new event's path. -/
theorem trackModification_session_reset_witness :
    trackMain modsA (some "session-B") (some "src/b.js") "T1" =
      { sessionId := some "session-B", files := ["src/b.js"], count := 1
        lastModified := some "T1", contextSyncedAt := none }
  ∧ trackMain (trackMain modsA (some "session-B") (some "src/b.js") "T1")
      (some "session-A") (some "src/c.js") "T2" =
      { sessionId := some "session-A", files := ["src/c.js"], count := 1
        lastModified := some "T2", contextSyncedAt := none }
  ∧ initStateDirMods (some (some modsA)) (some "session-B") = none :=
  trackModification_session_reset modsA "session-A" "session-B" "src/b.js"
    "src/c.js" "T1" "T2" rfl (by decide) (by decide) (by decide) (by decide)
    (by decide)

/-- Helper: evaluation of `runSmokeTests` once the selection of the last
completed item and its checks are fixed. -/
theorem runSmokeTests_eval (rt : String → String → Bool)
    (exec : VerificationCheck → ExecOutcome) (dv : String → Int)
    (fl : FeatureList) (config : Config) (items : List WorkItem)
    (lc : WorkItem) (vs : List VerificationCheck)
    (hrun : config.runSmokeTests = true) (hitems : fl.items = some items)
    (hlc : (completedItemsSorted dv items).head? = some lc)
    (hvs : lc.verification = some vs) (hne : vs.isEmpty = false) :
    runSmokeTests rt exec dv (some fl) config =
      some { itemId := lc.id, itemDescription := lc.description
             tests := (vs.filter (fun v => !v.optional)).map (fun v =>
               let result := runVerification rt v (exec v)
               { command := v.command, description := v.description
                 passed := result.passed, reason := result.reason })
             allPassed := ((vs.filter (fun v => !v.optional)).map (fun v =>
               let result := runVerification rt v (exec v)
               { command := v.command, description := v.description
                 passed := result.passed, reason := result.reason
                 : SmokeTest })).all (·.passed) } := by
  unfold runSmokeTests
  simp only [hrun, hitems, hlc, hvs, hne, Bool.not_true, Bool.false_eq_true,
    if_false]

/-- C5 counterexample. The claim states optional checks are executed and
their results reported; the smoke-test runner instead skips them
(`if (verification.optional) continue`). On `cex5FL`, whose last completed
item has exactly one (failing) optional check, the reported `tests` list is
empty — the optional check was neither run nor reported — while `allPassed`
is `true`. -/
theorem runSmokeTests_optional_skipped_cex :
    cex5Item.verification = some [optCheck]
  ∧ optCheck.optional = true
  ∧ (runVerification rtNever optCheck (execSplit optCheck)).passed = false
  ∧ runSmokeTests rtNever execSplit dvZero (some cex5FL) SessionStart.defaults =
      some { itemId := "it1", itemDescription := "shipped", tests := []
             allPassed := true } := by
  refine ⟨rfl, rfl, by decide, ?_⟩
  rw [runSmokeTests_eval rtNever execSplit dvZero cex5FL SessionStart.defaults
    [cex5Item] cex5Item [optCheck] rfl rfl
    (by rw [completedItemsSorted_singleton dvZero cex5Item (by decide)]; rfl)
    rfl rfl]
  decide

/-- C5 (amended). Optional checks are excluded from the smoke-test run: the
result is unchanged when the command runner is replaced by one agreeing
only on non-optional checks, and `allPassed` equals the conjunction of the
non-optional check results — a failing optional check never prevents
`allPassed` from being true when all non-optional checks pass. (Contrary to
the claim's wording, optional checks are skipped rather than executed and
reported; see the counterexample.) -/
theorem runSmokeTests_optional_excluded (rt : String → String → Bool)
    (exec exec' : VerificationCheck → ExecOutcome) (dv : String → Int)
    (fl : FeatureList) (config : Config) (items : List WorkItem)
    (lc : WorkItem) (vs : List VerificationCheck)
    (hrun : config.runSmokeTests = true) (hitems : fl.items = some items)
    (hlc : (completedItemsSorted dv items).head? = some lc)
    (hvs : lc.verification = some vs) (hne : vs.isEmpty = false)
    (hagree : ∀ v : VerificationCheck, v.optional = false → exec v = exec' v) :
    runSmokeTests rt exec dv (some fl) config =
      runSmokeTests rt exec' dv (some fl) config
  ∧ ∃ r, runSmokeTests rt exec dv (some fl) config = some r ∧
      r.allPassed = (vs.filter (fun v => !v.optional)).all
        (fun v => (runVerification rt v (exec v)).passed) := by
  have hmap : ∀ g : VerificationCheck → ExecOutcome,
      (∀ v : VerificationCheck, v.optional = false → exec v = g v) →
      ((vs.filter (fun v => !v.optional)).map (fun v =>
        let result := runVerification rt v (exec v)
        { command := v.command, description := v.description
          passed := result.passed, reason := result.reason : SmokeTest })) =
      ((vs.filter (fun v => !v.optional)).map (fun v =>
        let result := runVerification rt v (g v)
        { command := v.command, description := v.description
          passed := result.passed, reason := result.reason : SmokeTest })) := by
    intro g hg
    refine List.map_congr_left ?_
    intro v hv
    have hopt : v.optional = false := by
      have := List.of_mem_filter hv
      simpa using this
    rw [hg v hopt]
  constructor
  · rw [runSmokeTests_eval rt exec dv fl config items lc vs hrun hitems hlc
      hvs hne,
      runSmokeTests_eval rt exec' dv fl config items lc vs hrun hitems hlc
      hvs hne]
    have := hmap exec' hagree
    rw [this]
  · refine ⟨_, runSmokeTests_eval rt exec dv fl config items lc vs hrun
      hitems hlc hvs hne, ?_⟩
    simp only [all_map_eq]

/-- Witness for C5: the last completed item of `wit5FL` has a failing
optional check and a passing required check; `allPassed` is still true. -/
theorem runSmokeTests_optional_excluded_witness :
    runSmokeTests rtNever execSplit dvZero (some wit5FL) SessionStart.defaults =
      runSmokeTests rtNever execSplit dvZero (some wit5FL) SessionStart.defaults
  ∧ ∃ r, runSmokeTests rtNever execSplit dvZero (some wit5FL)
        SessionStart.defaults = some r ∧
      r.allPassed = ([optCheck, okCheck].filter (fun v => !v.optional)).all
        (fun v => (runVerification rtNever v (execSplit v)).passed) := by
  exact runSmokeTests_optional_excluded rtNever execSplit execSplit dvZero
    wit5FL SessionStart.defaults [wit5Item] wit5Item [optCheck, okCheck]
    rfl rfl
    (by rw [completedItemsSorted_singleton dvZero wit5Item (by decide)]; rfl)
    rfl rfl (fun _ _ => rfl)

/-- C6. A check whose execution throws with an exit status different from
the expected exit code yields a failed result carrying the error text as
its reason (the embedded `runVerification` is total, so the error is never
propagated), and a failing check never prevents the remaining checks from
being executed: the reported `tests` list has one entry per non-optional
check of the item. -/
theorem verification_failure_isolated (rt : String → String → Bool)
    (exec : VerificationCheck → ExecOutcome) (dv : String → Int)
    (fl : FeatureList) (config : Config) (items : List WorkItem)
    (lc : WorkItem) (vs : List VerificationCheck)
    (hrun : config.runSmokeTests = true) (hitems : fl.items = some items)
    (hlc : (completedItemsSorted dv items).head? = some lc)
    (hvs : lc.verification = some vs) (hne : vs.isEmpty = false) :
    (∀ (v : VerificationCheck) (status : Option Int) (message : String),
      status ≠ some (v.expectedExitCode.getD 0) → message ≠ "" →
      runVerification rt v (.err status message) =
        { passed := false, reason := some message })
  ∧ ∃ r, runSmokeTests rt exec dv (some fl) config = some r ∧
      r.tests.length = (vs.filter (fun v => !v.optional)).length := by
  constructor
  · intro v status message hstatus hmsg
    unfold runVerification
    have h1 : (status == some (v.expectedExitCode.getD 0)) = false := by
      simpa using hstatus
    have h2 : (message == "") = false := by
      simpa using hmsg
    simp [h1, h2]
  · refine ⟨_, runSmokeTests_eval rt exec dv fl config items lc vs hrun
      hitems hlc hvs hne, ?_⟩
    simp [List.length_map]

/-- Witness for C6: on `wit6FL` the first check throws (`missing-cmd`, no
exit status, expected exit code 0) and is reported failed with the error
text, while both non-optional checks appear in the report. -/
theorem verification_failure_isolated_witness :
    runVerification rtNever failCheck (.err none "spawn missing-cmd ENOENT") =
      { passed := false, reason := some "spawn missing-cmd ENOENT" }
  ∧ ∃ r, runSmokeTests rtNever execMix dvZero (some wit6FL)
        SessionStart.defaults = some r ∧ r.tests.length = 2 := by
  have h := verification_failure_isolated rtNever execMix dvZero wit6FL
    SessionStart.defaults [wit6Item] wit6Item [failCheck, okCheck] rfl rfl
    (by rw [completedItemsSorted_singleton dvZero wit6Item (by decide)]; rfl)
    rfl rfl
  refine ⟨h.1 failCheck none "spawn missing-cmd ENOENT" (by decide)
    (by decide), ?_⟩
  obtain ⟨r, hr, hl⟩ := h.2
  exact ⟨r, hr, by rw [hl]; decide⟩

/-- C7. The validation summary's `valid` is true iff its issue list is
empty; the process exit status is 0 iff `valid`; and in the §8 scenario
(artifact missing, git repository with no uncommitted changes, no tracked
modifications) the artifact's non-existence is the only issue. -/
theorem validate_summary_valid_iff (env : VEnv) :
    ((validateMain env).valid = true ↔ (validateMain env).issues = [])
  ∧ ((validateMain env).exitCode = 0 ↔ (validateMain env).valid = true)
  ∧ (validateMain scenarioEnv).issues = ["PROGRESS.md does not exist"]
  ∧ (validateMain scenarioEnv).valid = false
  ∧ (validateMain scenarioEnv).exitCode = 1 := by
  refine ⟨?_, ?_, by decide, by decide, by decide⟩
  · simp [validateMain, List.isEmpty_iff]
  · simp only [validateMain]
    cases h : (validateIssues env).isEmpty <;> simp [h]

/-- C8. A documentation artifact containing only a `Current State` heading
— in each of the four recognized styles — yields the missing-sections
report `["Recent Work", "Next Steps"]` (and `["Current State"]` found),
and the attached repair template is exactly the concatenation of the
fragments for those two sections and is non-empty; `validateMain` attaches
exactly that template. -/
theorem checkSections_missing_two (today : String) :
    checkSections "## Current State" =
      (["Current State"], ["Recent Work", "Next Steps"])
  ∧ checkSections "### Current State" =
      (["Current State"], ["Recent Work", "Next Steps"])
  ∧ checkSections "# Current State" =
      (["Current State"], ["Recent Work", "Next Steps"])
  ∧ checkSections "intro\n**Current State**\ndetails" =
      (["Current State"], ["Recent Work", "Next Steps"])
  ∧ generateRepairTemplate today ["Recent Work", "Next Steps"] =
      sectionTemplate today "Recent Work" ++ "\n" ++
        sectionTemplate today "Next Steps"
  ∧ generateRepairTemplate today ["Recent Work", "Next Steps"] ≠ ""
  ∧ (validateMain (onlyCurrentStateEnv today)).repairTemplate =
      some (generateRepairTemplate today ["Recent Work", "Next Steps"]) := by
  have hRW : sectionTemplate today "Recent Work" =
      "## Recent Work\n\n### " ++ today ++
        " - [Summary]\n- [What was done]\n" := rfl
  have hpair : generateRepairTemplate today ["Recent Work", "Next Steps"] =
      sectionTemplate today "Recent Work" ++ "\n" ++
        sectionTemplate today "Next Steps" := rfl
  have hpos : 0 < (generateRepairTemplate today
      ["Recent Work", "Next Steps"]).length := by
    rw [hpair, hRW]
    simp only [String.length_append]
    have h20 : 0 < ("## Recent Work\n\n### ").length := by decide
    omega
  have hcs : checkSections "## Current State" =
      (["Current State"], ["Recent Work", "Next Steps"]) := by decide
  refine ⟨hcs, by decide, by decide, by decide, hpair, ?_, ?_⟩
  · intro h
    rw [h] at hpos
    exact absurd hpos (by decide)
  · have h2 : (checkSections "## Current State").2 =
        ["Recent Work", "Next Steps"] := by rw [hcs]
    simp [validateMain, repairOf, onlyCurrentStateEnv, h2]

/-- C10. `session-end.js` always exits 0; it marks the session synced
exactly when it spawns the background sync; and it spawns iff all gating
conditions hold: engine and `sessionEndSync` enabled, lock acquired, a
session id present in the hook input, reason `exit`, session not already
context-synced for that id, and work to document. -/
theorem sessionEnd_gating (env : EEnv) :
    (sessionEndMain env).exitCode = 0
  ∧ (sessionEndMain env).markedSynced = (sessionEndMain env).spawned
  ∧ ((sessionEndMain env).spawned = true ↔
      ((eLoadConfig env.configFile).enabled = true
        ∧ (eLoadConfig env.configFile).sessionEndSync = true
        ∧ (acquireLock env.lockFile env.now).1 = true
        ∧ (jsOrNullStr env.sessionIdRaw).isSome = true
        ∧ env.reasonRaw = some "exit"
        ∧ wasContextSynced env.sessionFile (jsOrNullStr env.sessionIdRaw) =
            false
        ∧ hasWorkToDocument env.isGit env.gitStatusPorcelain env.modsFile
            env.gitLogHour (jsOrNullStr env.sessionIdRaw)
            (eLoadConfig env.configFile) = true)) := by
  have hreq : ((jsOrNullStr env.reasonRaw).getD "unknown" = "exit") ↔
      env.reasonRaw = some "exit" := by
    cases h : env.reasonRaw with
    | none =>
      constructor
      · intro h2
        exact absurd h2 (by decide)
      · intro h2
        exact absurd h2 (by simp)
    | some s =>
      by_cases hs : s = ""
      · subst hs
        constructor
        · intro h2
          exact absurd h2 (by decide)
        · intro h2
          exact absurd (Option.some.inj h2) (by decide)
      · have hj : jsOrNullStr (some s) = some s := by
          unfold jsOrNullStr
          simp [hs]
        rw [hj]
        simp
  cases he : (eLoadConfig env.configFile).enabled with
  | false => simp [sessionEndMain, he]
  | true =>
    cases hs : (eLoadConfig env.configFile).sessionEndSync with
    | false => simp [sessionEndMain, he, hs]
    | true =>
      cases hl : (acquireLock env.lockFile env.now).1 with
      | false => simp [sessionEndMain, he, hs, hl]
      | true =>
        cases hsid : jsOrNullStr env.sessionIdRaw with
        | none => simp [sessionEndMain, he, hs, hl, hsid]
        | some sid =>
          by_cases hre : env.reasonRaw = some "exit"
          · have hrr2 : ((jsOrNullStr (some "exit")).getD "unknown" != "exit") =
                false := by decide
            cases hw : wasContextSynced env.sessionFile (some sid) with
            | true => simp [sessionEndMain, he, hs, hl, hsid, hre, hrr2, hw]
            | false =>
              cases hh : hasWorkToDocument env.isGit env.gitStatusPorcelain
                  env.modsFile env.gitLogHour (some sid)
                  (eLoadConfig env.configFile) with
              | false =>
                simp [sessionEndMain, he, hs, hl, hsid, hre, hrr2, hw, hh]
              | true =>
                simp [sessionEndMain, he, hs, hl, hsid, hre, hrr2, hw, hh]
          · have hrr : ((jsOrNullStr env.reasonRaw).getD "unknown" != "exit") =
                true := by
              simp only [bne_iff_ne, ne_eq]
              exact fun hcontra => hre (hreq.mp hcontra)
            simp [sessionEndMain, he, hs, hl, hsid, hrr, hre]

end ContextSync
